import Mathlib

/-!
Shallow embedding of the PDF question-answering pipeline of `app.py`
(`document_qna_tool`) and of the dispatch layer of `Gradio_UI.py`
(`GradioUI.process_input`).

External collaborators (PyMuPDF text extraction, the sentence-transformer
embedding model, `util.pytorch_cos_sim`, and the text-generation pipeline)
are modelled as opaque, fallible services: a raised Python exception is an
`Except.error` carrying its description string.  The pipeline itself is a
total Lean function returning the produced string together with a trace of
the externally observable events (document open/close, embedding calls,
similarity call, generation call), mirroring the Python control flow line
by line.
-/

namespace DocQna

/-- Python's `str.strip` on a character list: drop whitespace from the
front, then from the back. -/
def stripChars (l : List Char) : List Char :=
  (l.dropWhile Char.isWhitespace).rdropWhile Char.isWhitespace

/-- Python's `str.strip` on strings (`text.strip()` / `answer.strip()`). -/
def pyStrip (s : String) : String :=
  ⟨stripChars s.data⟩

/-- Maximum of the nonempty score list `x :: xs` (the value torch `argmax`
selects). -/
def maxOf : ℚ → List ℚ → ℚ
  | x, [] => x
  | x, y :: ys => max x (maxOf y ys)

/-- Index of the first occurrence of the maximum in `x :: xs`, matching
the documented tie-breaking of torch `Tensor.argmax` (first maximal
index). -/
def argmaxOf : ℚ → List ℚ → Nat
  | _, [] => 0
  | x, y :: ys => if x < maxOf y ys then argmaxOf y ys + 1 else 0

/-- `scores.argmax()` on a score vector; `none` on an empty tensor, where
torch raises. -/
def argmaxIdx : List ℚ → Option Nat
  | [] => none
  | x :: xs => some (argmaxOf x xs)

/-- Externally observable actions of one `document_qna_tool` invocation. -/
inductive Event : Type
  | openDoc : Event
  | closeDoc : Event
  | encodeChunks : List String → Event
  | encodeQuestion : String → Event
  | cosSim : Event
  | generate : String → Nat → Event
deriving DecidableEq

/-- An embedding vector (`convert_to_tensor=True` tensors are opaque to the
pipeline; only the similarity service looks inside). -/
def Vec : Type := List ℚ

/-- The opaque external services of `app.py`, each fallible: `Except.error e`
models a raised Python exception whose `str` is `e`.
`fitz_open` maps a path to the document's pages, each page being the
fallible result of `page.get_text()`. -/
structure Services : Type where
  fitz_open : String → Except String (List (Except String String))
  encode_list : List String → Except String (List Vec)
  encode_one : String → Except String Vec
  cos_sim : Vec → List Vec → Except String (List ℚ)
  generate : String → Nat → Except String (List String)

/-- The page loop of `document_qna_tool` (lines 98–102 of `app.py`): collect
`page.get_text()` for every page, keeping the raw text exactly when its
stripped form is non-empty; a raised extraction exception aborts the loop. -/
def extractChunks : List (Except String String) → Except String (List String)
  | [] => .ok []
  | .error e :: _ => .error e
  | .ok text :: rest =>
    match extractChunks rest with
    | .error e => .error e
    | .ok chunks => .ok (if pyStrip text ≠ "" then text :: chunks else chunks)

/-- The `try:` block of `document_qna_tool` (lines 96–118 of `app.py`):
`Except.error` is an exception escaping the block to the handler, paired
with the trace of events that happened before it was raised.  Note that
`doc.close()` (the `closeDoc` event) is executed only on the straight-line
path after the page loop, exactly as in the source. -/
def qnaBody (sv : Services) (pdf_path question : String) :
    Except String String × List Event :=
  match sv.fitz_open pdf_path with
  | .error e => (.error e, [])
  | .ok doc =>
    match extractChunks doc with
    | .error e => (.error e, [.openDoc])
    | .ok text_chunks =>
      if text_chunks = [] then
        (.ok "No text found in the PDF.", [.openDoc, .closeDoc])
      else
        match sv.encode_list text_chunks with
        | .error e => (.error e, [.openDoc, .closeDoc, .encodeChunks text_chunks])
        | .ok embeddings =>
          match sv.encode_one question with
          | .error e =>
            (.error e,
              [.openDoc, .closeDoc, .encodeChunks text_chunks,
                .encodeQuestion question])
          | .ok question_embedding =>
            match sv.cos_sim question_embedding embeddings with
            | .error e =>
              (.error e,
                [.openDoc, .closeDoc, .encodeChunks text_chunks,
                  .encodeQuestion question, .cosSim])
            | .ok scores =>
              match argmaxIdx scores with
              | none =>
                (.error "argmax(): Expected reduction dim to be specified for input.numel() == 0",
                  [.openDoc, .closeDoc, .encodeChunks text_chunks,
                    .encodeQuestion question, .cosSim])
              | some best_match_idx =>
                match text_chunks[best_match_idx]? with
                | none =>
                  (.error "list index out of range",
                    [.openDoc, .closeDoc, .encodeChunks text_chunks,
                      .encodeQuestion question, .cosSim])
                | some best_context =>
                  let prompt :=
                    "Context: " ++ best_context ++ "\nQuestion: " ++ question
                  match sv.generate prompt 100 with
                  | .error e =>
                    (.error e,
                      [.openDoc, .closeDoc, .encodeChunks text_chunks,
                        .encodeQuestion question, .cosSim, .generate prompt 100])
                  | .ok [] =>
                    (.error "list index out of range",
                      [.openDoc, .closeDoc, .encodeChunks text_chunks,
                        .encodeQuestion question, .cosSim, .generate prompt 100])
                  | .ok (answer :: _) =>
                    (.ok ("Answer: " ++ pyStrip answer),
                      [.openDoc, .closeDoc, .encodeChunks text_chunks,
                        .encodeQuestion question, .cosSim, .generate prompt 100])

/-- `document_qna_tool` of `app.py`: the `try:` body plus the
`except Exception` handler that turns any raised exception into the
`"Error processing document QnA: ..."` string. -/
def document_qna_tool (sv : Services) (pdf_path question : String) :
    String × List Event :=
  match qnaBody sv pdf_path question with
  | (.ok s, tr) => (s, tr)
  | (.error e, tr) => ("Error processing document QnA: " ++ e, tr)

/-- A concrete service assignment for evaluating the pipeline: a two-page
document, distinct similarity scores (the second page scores higher), and
a generation result with surrounding whitespace. -/
def svDemo : Services where
  fitz_open := fun _ =>
    .ok [.ok "Paris is the capital of France.",
         .ok "Berlin is the capital of Germany."]
  encode_list := fun cs => .ok (cs.map fun _ => ([] : List ℚ))
  encode_one := fun _ => .ok ([] : List ℚ)
  cos_sim := fun _ _ => .ok [(1 : ℚ), (3 : ℚ)]
  generate := fun _ _ => .ok ["  Berlin.  "]

/-- A concrete service assignment where both chunks receive the same
similarity score, to evaluate the tie-breaking behaviour. -/
def svTie : Services where
  fitz_open := fun _ =>
    .ok [.ok "Paris is the capital of France.",
         .ok "Berlin is the capital of Germany."]
  encode_list := fun cs => .ok (cs.map fun _ => ([] : List ℚ))
  encode_one := fun _ => .ok ([] : List ℚ)
  cos_sim := fun _ _ => .ok [(2 : ℚ), (2 : ℚ)]
  generate := fun _ _ => .ok ["Paris."]

/-- A concrete service assignment whose document raises an exception from
`page.get_text()` on the second page, after the document was opened. -/
def svFail : Services where
  fitz_open := fun _ => .ok [.ok "hello", .error "boom"]
  encode_list := fun _ => .ok []
  encode_one := fun _ => .ok ([] : List ℚ)
  cos_sim := fun _ _ => .ok []
  generate := fun _ _ => .ok []

/-- A concrete service assignment whose document consists of a
whitespace-only page and an empty page. -/
def svBlank : Services where
  fitz_open := fun _ => .ok [.ok "   ", .ok ""]
  encode_list := fun _ => .ok []
  encode_one := fun _ => .ok ([] : List ℚ)
  cos_sim := fun _ _ => .ok []
  generate := fun _ _ => .ok []

end DocQna

namespace GradioUI

/-- A Gradio `gr.File` upload object; its `.name` attribute is the path of
the uploaded file on disk. -/
structure GrFile : Type where
  name : String

/-- A tool registered on the agent.  The tools of `app.py` take either one
string argument (weather, time, search, …) or two (`document_qna_tool`);
calling a one-argument tool with two arguments raises a `TypeError`. -/
inductive Tool : Type
  | unary : (String → Except String String) → Tool
  | binary : (String → String → Except String String) → Tool

/-- Calling a tool with two positional arguments, as
`self.agent.tools[4](pdf_file.name, query)` does. -/
def callTool2 : Tool → String → String → Except String String
  | .binary f, a, b => f a b
  | .unary _, _, _ => .error "takes 1 positional argument but 2 were given"

/-- Which downstream component a `process_input` call handed the request
to: the Document Q&A tool at index 4, the general agent loop
(`agent.run`), or neither. -/
inductive Dispatch : Type
  | docQna : String → String → Dispatch
  | agentRun : String → Dispatch
  | noCall : Dispatch
deriving DecidableEq

/-- `GradioUI.process_input` of `Gradio_UI.py`: routes the query to the
Document Q&A tool at fixed index 4 when a PDF is uploaded and the query is
non-blank, to `agent.run` when only a non-blank query is given, and to a
fixed prompt message otherwise; every exception of the callee is caught.
`run` models `self.agent.run`, `tools` models `self.agent.tools`. -/
def process_input (tools : List Tool) (run : String → Except String String)
    (query : String) (pdf_file : Option GrFile) : String × Dispatch :=
  match pdf_file with
  | some f =>
    if DocQna.pyStrip query ≠ "" then
      match tools[4]? with
      | none =>
        ("Error: Document Q&A tool not found at the expected index (4). Check agent tool setup in app.py.",
          .noCall)
      | some t =>
        match callTool2 t f.name query with
        | .ok response => (response, .docQna f.name query)
        | .error e =>
          ("An error occurred during Document Q&A: " ++ e, .docQna f.name query)
    else
      ("Please enter a question in the textbox to ask about the uploaded PDF.",
        .noCall)
  | none =>
    if DocQna.pyStrip query ≠ "" then
      match run query with
      | .ok response => (response, .agentRun query)
      | .error e =>
        ("An error occurred while processing your request: " ++ e, .agentRun query)
    else
      ("Please enter a request or upload a document for analysis.", .noCall)

/-- `document_qna_tool` as it appears inside the agent's tool list: a
two-argument tool that never raises (its catch-all converts every failure
into a returned string). -/
def qnaToolEntry (sv : DocQna.Services) : Tool :=
  .binary fun pdf_path question =>
    .ok (DocQna.document_qna_tool sv pdf_path question).1

/-- The tool list registered at `CodeAgent` construction in `app.py`
(lines 140–157): time, weather, image generation, search, the Document
Q&A tool, final answer — in that order. -/
def appTools (time weather image search final : Tool)
    (sv : DocQna.Services) : List Tool :=
  [time, weather, image, search, qnaToolEntry sv, final]

/-- A stub one-argument tool. -/
def stubTool : Tool := .unary fun s => .ok s

/-- The concrete `app.py` tool list built over the demo services. -/
def toolsDemo : List Tool :=
  appTools stubTool stubTool stubTool stubTool stubTool DocQna.svDemo

/-- A tool list whose index-4 tool raises. -/
def toolsErr : List Tool :=
  [stubTool, stubTool, stubTool, stubTool,
    Tool.binary fun _ _ => .error "tool down", stubTool]

/-- A stub `agent.run` that answers every query. -/
def runDemo : String → Except String String := fun q => .ok ("ran: " ++ q)

/-- A stub `agent.run` that raises on every query. -/
def runErr : String → Except String String := fun _ => .error "agent down"

end GradioUI

namespace DocQna

theorem head?_dropWhile_not {α : Type} (p : α → Bool) (l : List α) :
    ∀ c, (l.dropWhile p).head? = some c → ¬ p c = true := by
  induction l with
  | nil => intro c hc; simp at hc
  | cons x xs ih =>
    intro c hc
    by_cases hx : p x
    · rw [List.dropWhile_cons, if_pos hx] at hc
      exact ih c hc
    · rw [List.dropWhile_cons, if_neg hx] at hc
      simp only [List.head?_cons, Option.some.injEq] at hc
      exact hc ▸ hx

theorem dropWhile_eq_self_of_head? {α : Type} (p : α → Bool) (l : List α)
    (h : ∀ c, l.head? = some c → ¬ p c = true) : l.dropWhile p = l := by
  cases l with
  | nil => rfl
  | cons x xs =>
    rw [List.dropWhile_cons, if_neg (h x rfl)]

theorem stripChars_dropWhile (l : List Char) :
    (stripChars l).dropWhile Char.isWhitespace = stripChars l := by
  apply dropWhile_eq_self_of_head?
  intro c hc
  obtain ⟨t, ht⟩ :=
    List.rdropWhile_prefix Char.isWhitespace (l.dropWhile Char.isWhitespace)
  apply head?_dropWhile_not Char.isWhitespace l c
  rw [← ht, List.head?_append]
  show (stripChars l).head?.or t.head? = some c
  rw [hc]
  rfl

theorem stripChars_idempotent (l : List Char) :
    stripChars (stripChars l) = stripChars l := by
  show ((stripChars l).dropWhile Char.isWhitespace).rdropWhile Char.isWhitespace
      = stripChars l
  rw [stripChars_dropWhile l]
  show ((l.dropWhile Char.isWhitespace).rdropWhile Char.isWhitespace).rdropWhile
      Char.isWhitespace = stripChars l
  rw [List.rdropWhile_idempotent]
  rfl

theorem pyStrip_idempotent (s : String) : pyStrip (pyStrip s) = pyStrip s :=
  congrArg String.mk (stripChars_idempotent s.data)

theorem le_maxOf (x : ℚ) (xs : List ℚ) : ∀ z ∈ x :: xs, z ≤ maxOf x xs := by
  induction xs generalizing x with
  | nil =>
    intro z hz
    simp only [List.mem_singleton] at hz
    simp [maxOf, hz]
  | cons y ys ih =>
    intro z hz
    show z ≤ max x (maxOf y ys)
    rcases List.mem_cons.mp hz with h | h
    · exact h ▸ le_max_left _ _
    · exact le_trans (ih y z h) (le_max_right _ _)

theorem argmaxOf_lt_length (x : ℚ) (xs : List ℚ) :
    argmaxOf x xs < (x :: xs).length := by
  induction xs generalizing x with
  | nil => simp [argmaxOf]
  | cons y ys ih =>
    by_cases h : x < maxOf y ys
    · have h1 : argmaxOf x (y :: ys) = argmaxOf y ys + 1 := by
        simp [argmaxOf, h]
      have h2 := ih y
      simp only [List.length_cons] at h2 ⊢
      omega
    · have h1 : argmaxOf x (y :: ys) = 0 := by simp [argmaxOf, h]
      simp [h1]

theorem argmaxOf_getElem? (x : ℚ) (xs : List ℚ) :
    (x :: xs)[argmaxOf x xs]? = some (maxOf x xs) := by
  induction xs generalizing x with
  | nil => simp [argmaxOf, maxOf]
  | cons y ys ih =>
    by_cases h : x < maxOf y ys
    · have h1 : argmaxOf x (y :: ys) = argmaxOf y ys + 1 := by
        simp [argmaxOf, h]
      have h2 : maxOf x (y :: ys) = maxOf y ys := by
        show max x (maxOf y ys) = maxOf y ys
        exact max_eq_right h.le
      rw [h1, h2, List.getElem?_cons_succ]
      exact ih y
    · have h1 : argmaxOf x (y :: ys) = 0 := by simp [argmaxOf, h]
      have h2 : maxOf x (y :: ys) = x := by
        show max x (maxOf y ys) = x
        exact max_eq_left (not_lt.mp h)
      rw [h1, h2, List.getElem?_cons_zero]

theorem argmaxOf_first (x : ℚ) (xs : List ℚ) :
    ∀ j, j < argmaxOf x xs → ∀ v, (x :: xs)[j]? = some v → v < maxOf x xs := by
  induction xs generalizing x with
  | nil => intro j hj; simp [argmaxOf] at hj
  | cons y ys ih =>
    intro j hj v hv
    by_cases h : x < maxOf y ys
    · have h1 : argmaxOf x (y :: ys) = argmaxOf y ys + 1 := by
        simp [argmaxOf, h]
      have h2 : maxOf x (y :: ys) = maxOf y ys := by
        show max x (maxOf y ys) = maxOf y ys
        exact max_eq_right h.le
      rw [h1] at hj
      rcases j with _ | k
      · rw [List.getElem?_cons_zero] at hv
        rw [h2]
        exact (Option.some.inj hv) ▸ h
      · rw [List.getElem?_cons_succ] at hv
        rw [h2]
        exact ih y k (Nat.lt_of_succ_lt_succ hj) v hv
    · have h1 : argmaxOf x (y :: ys) = 0 := by simp [argmaxOf, h]
      rw [h1] at hj
      exact absurd hj (Nat.not_lt_zero j)

theorem argmaxIdx_isSome {l : List ℚ} (h : l ≠ []) :
    ∃ i, argmaxIdx l = some i := by
  cases l with
  | nil => exact absurd rfl h
  | cons x xs => exact ⟨argmaxOf x xs, rfl⟩

theorem argmaxIdx_lt_length {l : List ℚ} {i : Nat} (h : argmaxIdx l = some i) :
    i < l.length := by
  cases l with
  | nil => simp [argmaxIdx] at h
  | cons x xs =>
    have : argmaxOf x xs = i := Option.some.inj h
    exact this ▸ argmaxOf_lt_length x xs

theorem argmaxIdx_max {l : List ℚ} {i : Nat} (h : argmaxIdx l = some i) :
    ∃ s, l[i]? = some s ∧ ∀ z ∈ l, z ≤ s := by
  cases l with
  | nil => simp [argmaxIdx] at h
  | cons x xs =>
    have hi : argmaxOf x xs = i := Option.some.inj h
    exact ⟨maxOf x xs, hi ▸ argmaxOf_getElem? x xs, le_maxOf x xs⟩

theorem argmaxIdx_tiebreak {l : List ℚ} {i : Nat} (h : argmaxIdx l = some i) :
    ∃ s, l[i]? = some s ∧ ∀ j, j < i → ∀ v, l[j]? = some v → v < s := by
  cases l with
  | nil => simp [argmaxIdx] at h
  | cons x xs =>
    have hi : argmaxOf x xs = i := Option.some.inj h
    exact ⟨maxOf x xs, hi ▸ argmaxOf_getElem? x xs,
      fun j hj v hv => argmaxOf_first x xs j (hi ▸ hj) v hv⟩

theorem extractChunks_map_ok (pages : List String) :
    extractChunks (pages.map Except.ok)
      = .ok (pages.filter fun t => pyStrip t ≠ "") := by
  induction pages with
  | nil => rfl
  | cons p ps ih =>
    by_cases h : pyStrip p = ""
    · simp [extractChunks, ih, List.filter_cons, h]
    · simp [extractChunks, ih, List.filter_cons, h]

theorem extractChunks_blank (pages : List String)
    (h : ∀ p ∈ pages, pyStrip p = "") :
    extractChunks (pages.map Except.ok) = .ok [] := by
  rw [extractChunks_map_ok]
  congr 1
  rw [List.filter_eq_nil_iff]
  intro a ha
  simp [h a ha]

theorem document_qna_tool_snd (sv : Services) (pdf_path question : String) :
    (document_qna_tool sv pdf_path question).2
      = (qnaBody sv pdf_path question).2 := by
  unfold document_qna_tool
  rcases qnaBody sv pdf_path question with ⟨res, tr⟩
  cases res <;> rfl

theorem qnaBody_success_trace
    (sv : Services) (pdf_path question : String)
    (pages : List (Except String String)) (chunks : List String)
    (embs : List Vec) (qe : Vec) (scores : List ℚ) (i : Nat) (ctx : String)
    (hopen : sv.fitz_open pdf_path = .ok pages)
    (hex : extractChunks pages = .ok chunks)
    (hne : chunks ≠ [])
    (hembs : sv.encode_list chunks = .ok embs)
    (hqe : sv.encode_one question = .ok qe)
    (hsc : sv.cos_sim qe embs = .ok scores)
    (hargm : argmaxIdx scores = some i)
    (hget : chunks[i]? = some ctx) :
    (qnaBody sv pdf_path question).2
      = [.openDoc, .closeDoc, .encodeChunks chunks, .encodeQuestion question,
          .cosSim,
          .generate ("Context: " ++ ctx ++ "\nQuestion: " ++ question) 100] := by
  unfold qnaBody
  simp only [hopen, hex, hembs, hqe, hsc, hargm, hget, if_neg hne]
  rcases hg : sv.generate ("Context: " ++ ctx ++ "\nQuestion: " ++ question) 100
    with e | l
  · simp
  · cases l <;> simp

theorem qnaBody_ok_shape (sv : Services) (pdf_path question : String)
    {s : String} {tr : List Event}
    (h : qnaBody sv pdf_path question = (.ok s, tr)) :
    s = "No text found in the PDF." ∨ ∃ a, s = "Answer: " ++ pyStrip a := by
  unfold qnaBody at h
  rcases ho : sv.fitz_open pdf_path with e | doc <;> simp only [ho] at h
  · simp at h
  · rcases hex : extractChunks doc with e | chunks <;> simp only [hex] at h
    · simp at h
    · by_cases hnil : chunks = []
      · rw [if_pos hnil] at h
        simp only [Prod.mk.injEq, Except.ok.injEq] at h
        exact Or.inl h.1.symm
      · rw [if_neg hnil] at h
        rcases he : sv.encode_list chunks with e | embs <;> simp only [he] at h
        · simp at h
        · rcases hq : sv.encode_one question with e | qe <;> simp only [hq] at h
          · simp at h
          · rcases hc : sv.cos_sim qe embs with e | scores <;>
              simp only [hc] at h
            · simp at h
            · rcases ha : argmaxIdx scores with _ | i <;> simp only [ha] at h
              · simp at h
              · rcases hg : chunks[i]? with _ | ctx <;> simp only [hg] at h
                · simp at h
                · rcases hgen : sv.generate
                      ("Context: " ++ ctx ++ "\nQuestion: " ++ question) 100
                    with e | l
                  · simp only [hgen] at h
                    simp at h
                  · rcases l with _ | ⟨a, rest⟩
                    · simp only [hgen] at h
                      simp at h
                    · simp only [hgen] at h
                      simp only [Prod.mk.injEq, Except.ok.injEq] at h
                      exact Or.inr ⟨a, h.1.symm⟩

/-- C1: with every service succeeding and one score per chunk, the chunk
fed into the prompt is the one at the argmax index of the cosine-similarity
scores, whose score bounds every score in the list; and for a singleton
chunk list that chunk is selected whatever the question is. -/
theorem claim_c1_max_similarity_selection
    (sv : Services) (pdf_path question : String)
    (pages : List (Except String String)) (chunks : List String)
    (embs : List Vec) (qe : Vec) (scores : List ℚ)
    (hopen : sv.fitz_open pdf_path = .ok pages)
    (hex : extractChunks pages = .ok chunks)
    (hne : chunks ≠ [])
    (hembs : sv.encode_list chunks = .ok embs)
    (hqe : sv.encode_one question = .ok qe)
    (hsc : sv.cos_sim qe embs = .ok scores)
    (hlen : scores.length = chunks.length) :
    ∃ i s ctx,
      argmaxIdx scores = some i ∧
      scores[i]? = some s ∧
      (∀ z ∈ scores, z ≤ s) ∧
      chunks[i]? = some ctx ∧
      Event.generate ("Context: " ++ ctx ++ "\nQuestion: " ++ question) 100
          ∈ (document_qna_tool sv pdf_path question).2 ∧
      (∀ t, chunks = [t] → ctx = t) := by
  have hscne : scores ≠ [] := by
    intro h0
    rw [h0] at hlen
    cases chunks with
    | nil => exact hne rfl
    | cons c cs => simp at hlen
  obtain ⟨i, hargm⟩ := argmaxIdx_isSome hscne
  obtain ⟨s, hsi, hmax⟩ := argmaxIdx_max hargm
  have hilt : i < scores.length := argmaxIdx_lt_length hargm
  have hic : i < chunks.length := hlen ▸ hilt
  have hget : chunks[i]? = some chunks[i] := List.getElem?_eq_getElem hic
  refine ⟨i, s, chunks[i], hargm, hsi, hmax, hget, ?_, ?_⟩
  · rw [document_qna_tool_snd,
      qnaBody_success_trace sv pdf_path question pages chunks embs qe scores i
        (chunks[i]) hopen hex hne hembs hqe hsc hargm hget]
    simp
  · intro t ht
    subst ht
    have hi0 : i = 0 := Nat.lt_one_iff.mp (by simpa using hic)
    subst hi0
    rfl

/-- C1 witness: the demo services give the two-chunk Paris/Berlin document
scores 1/4 and 3/4; the claim instantiates with every hypothesis
discharged by evaluation. -/
theorem claim_c1_max_similarity_selection_witness :
    ∃ i s ctx,
      argmaxIdx [(1 : ℚ), (3 : ℚ)] = some i ∧
      [(1 : ℚ), (3 : ℚ)][i]? = some s ∧
      (∀ z ∈ [(1 : ℚ), (3 : ℚ)], z ≤ s) ∧
      ["Paris is the capital of France.",
        "Berlin is the capital of Germany."][i]? = some ctx ∧
      Event.generate
          ("Context: " ++ ctx ++ "\nQuestion: " ++ "What is the capital of Germany?")
          100
          ∈ (document_qna_tool svDemo "doc.pdf" "What is the capital of Germany?").2 ∧
      (∀ t, ["Paris is the capital of France.",
              "Berlin is the capital of Germany."] = [t] → ctx = t) :=
  claim_c1_max_similarity_selection svDemo "doc.pdf"
    "What is the capital of Germany?"
    [.ok "Paris is the capital of France.",
      .ok "Berlin is the capital of Germany."]
    ["Paris is the capital of France.", "Berlin is the capital of Germany."]
    [[], []] [] [(1 : ℚ), (3 : ℚ)]
    rfl (by rfl) (by decide) rfl rfl rfl rfl

/-- C2: the selected index is the first index attaining the maximal score
(every strictly earlier index has a strictly smaller score), and the
selection is a function of the inputs, hence deterministic. -/
theorem claim_c2_first_of_ties
    (sv : Services) (pdf_path question : String)
    (pages : List (Except String String)) (chunks : List String)
    (embs : List Vec) (qe : Vec) (scores : List ℚ)
    (hopen : sv.fitz_open pdf_path = .ok pages)
    (hex : extractChunks pages = .ok chunks)
    (hne : chunks ≠ [])
    (hembs : sv.encode_list chunks = .ok embs)
    (hqe : sv.encode_one question = .ok qe)
    (hsc : sv.cos_sim qe embs = .ok scores)
    (hlen : scores.length = chunks.length) :
    ∃ i s ctx,
      argmaxIdx scores = some i ∧
      scores[i]? = some s ∧
      chunks[i]? = some ctx ∧
      (∀ j, j < i → ∀ v, scores[j]? = some v → v < s) ∧
      Event.generate ("Context: " ++ ctx ++ "\nQuestion: " ++ question) 100
          ∈ (document_qna_tool sv pdf_path question).2 ∧
      (∀ sv2 path2 q2, sv2 = sv → path2 = pdf_path → q2 = question →
        document_qna_tool sv2 path2 q2
          = document_qna_tool sv pdf_path question) := by
  have hscne : scores ≠ [] := by
    intro h0
    rw [h0] at hlen
    cases chunks with
    | nil => exact hne rfl
    | cons c cs => simp at hlen
  obtain ⟨i, hargm⟩ := argmaxIdx_isSome hscne
  obtain ⟨s, hsi, hfirst⟩ := argmaxIdx_tiebreak hargm
  have hilt : i < scores.length := argmaxIdx_lt_length hargm
  have hic : i < chunks.length := hlen ▸ hilt
  have hget : chunks[i]? = some chunks[i] := List.getElem?_eq_getElem hic
  refine ⟨i, s, chunks[i], hargm, hsi, hget, hfirst, ?_, ?_⟩
  · rw [document_qna_tool_snd,
      qnaBody_success_trace sv pdf_path question pages chunks embs qe scores i
        (chunks[i]) hopen hex hne hembs hqe hsc hargm hget]
    simp
  · intro sv2 path2 q2 h1 h2 h3
    subst h1; subst h2; subst h3
    rfl

/-- C2 witness: with both chunks scoring 1/2, the first chunk (index 0,
the Paris chunk) is selected. -/
theorem claim_c2_first_of_ties_witness :
    ∃ i s ctx,
      argmaxIdx [(2 : ℚ), (2 : ℚ)] = some i ∧
      [(2 : ℚ), (2 : ℚ)][i]? = some s ∧
      ["Paris is the capital of France.",
        "Berlin is the capital of Germany."][i]? = some ctx ∧
      (∀ j, j < i → ∀ v, [(2 : ℚ), (2 : ℚ)][j]? = some v → v < s) ∧
      Event.generate ("Context: " ++ ctx ++ "\nQuestion: " ++ "Which city?") 100
          ∈ (document_qna_tool svTie "doc.pdf" "Which city?").2 ∧
      (∀ sv2 path2 q2, sv2 = svTie → path2 = "doc.pdf" → q2 = "Which city?" →
        document_qna_tool sv2 path2 q2
          = document_qna_tool svTie "doc.pdf" "Which city?") :=
  claim_c2_first_of_ties svTie "doc.pdf" "Which city?"
    [.ok "Paris is the capital of France.",
      .ok "Berlin is the capital of Germany."]
    ["Paris is the capital of France.", "Berlin is the capital of Germany."]
    [[], []] [] [(2 : ℚ), (2 : ℚ)]
    rfl (by rfl) (by decide) rfl rfl rfl rfl

/-- C3: if every page's text strips to empty, the tool returns exactly
`"No text found in the PDF."`, and the trace shows only the document open
and close — no embedding, similarity, or generation call. -/
theorem claim_c3_all_blank
    (sv : Services) (pdf_path question : String) (pages : List String)
    (hopen : sv.fitz_open pdf_path = .ok (pages.map Except.ok))
    (hblank : ∀ p ∈ pages, pyStrip p = "") :
    document_qna_tool sv pdf_path question
      = ("No text found in the PDF.", [Event.openDoc, Event.closeDoc]) := by
  unfold document_qna_tool qnaBody
  simp only [hopen, extractChunks_blank pages hblank]
  simp

/-- C3 witness: a document with a whitespace-only page and an empty page. -/
theorem claim_c3_all_blank_witness :
    document_qna_tool svBlank "blank.pdf" "anything?"
      = ("No text found in the PDF.", [Event.openDoc, Event.closeDoc]) :=
  claim_c3_all_blank svBlank "blank.pdf" "anything?" ["   ", ""] rfl (by decide)

/-- C4: every run either converts an exception raised inside the body into
the `"Error processing document QnA: "` message carrying that exception's
description, or returns the no-text message, or returns a stripped answer
with the `"Answer: "` prefix; the model is a total function, so no
exception crosses the boundary and every path returns a string. -/
theorem claim_c4_catch_all (sv : Services) (pdf_path question : String) :
    (∃ e tr, qnaBody sv pdf_path question = (.error e, tr) ∧
        document_qna_tool sv pdf_path question
          = ("Error processing document QnA: " ++ e, tr)) ∨
    (∃ tr, document_qna_tool sv pdf_path question
        = ("No text found in the PDF.", tr)) ∨
    (∃ a tr, document_qna_tool sv pdf_path question
        = ("Answer: " ++ pyStrip a, tr)) := by
  rcases hb : qnaBody sv pdf_path question with ⟨res, tr⟩
  cases res with
  | error e =>
    left
    exact ⟨e, tr, rfl, by unfold document_qna_tool; rw [hb]⟩
  | ok s =>
    have htool : document_qna_tool sv pdf_path question = (s, tr) := by
      unfold document_qna_tool; rw [hb]
    rcases qnaBody_ok_shape sv pdf_path question hb with h | ⟨a, ha⟩
    · exact Or.inr (Or.inl ⟨tr, by rw [htool, h]⟩)
    · exact Or.inr (Or.inr ⟨a, tr, by rw [htool, ha]⟩)

/-- C5: on the success path the prompt is exactly
`"Context: " ++ chunk ++ "\nQuestion: " ++ question`, generation is called
with `max_new_tokens = 100`, the first generated result is stripped and
prefixed with `"Answer: "`, and the stripped part has no leading or
trailing whitespace (stripping it again changes nothing). -/
theorem claim_c5_answer_format
    (sv : Services) (pdf_path question : String)
    (pages : List (Except String String)) (chunks : List String)
    (embs : List Vec) (qe : Vec) (scores : List ℚ) (i : Nat) (ctx a : String)
    (rest : List String)
    (hopen : sv.fitz_open pdf_path = .ok pages)
    (hex : extractChunks pages = .ok chunks)
    (hne : chunks ≠ [])
    (hembs : sv.encode_list chunks = .ok embs)
    (hqe : sv.encode_one question = .ok qe)
    (hsc : sv.cos_sim qe embs = .ok scores)
    (hargm : argmaxIdx scores = some i)
    (hget : chunks[i]? = some ctx)
    (hgen : sv.generate ("Context: " ++ ctx ++ "\nQuestion: " ++ question) 100
      = .ok (a :: rest)) :
    document_qna_tool sv pdf_path question
        = ("Answer: " ++ pyStrip a,
            [.openDoc, .closeDoc, .encodeChunks chunks,
              .encodeQuestion question, .cosSim,
              .generate ("Context: " ++ ctx ++ "\nQuestion: " ++ question) 100]) ∧
      pyStrip (pyStrip a) = pyStrip a := by
  constructor
  · unfold document_qna_tool qnaBody
    simp only [hopen, hex, hembs, hqe, hsc, hargm, hget, hgen, if_neg hne]
  · exact pyStrip_idempotent a

/-- C5 witness: the demo services generate `"  Berlin.  "`, returned as
`"Answer: Berlin."`. -/
theorem claim_c5_answer_format_witness :
    document_qna_tool svDemo "doc.pdf" "What is the capital of Germany?"
        = ("Answer: " ++ pyStrip "  Berlin.  ",
            [.openDoc, .closeDoc,
              .encodeChunks ["Paris is the capital of France.",
                "Berlin is the capital of Germany."],
              .encodeQuestion "What is the capital of Germany?", .cosSim,
              .generate ("Context: " ++ "Berlin is the capital of Germany."
                  ++ "\nQuestion: " ++ "What is the capital of Germany?") 100]) ∧
      pyStrip (pyStrip "  Berlin.  ") = pyStrip "  Berlin.  " :=
  claim_c5_answer_format svDemo "doc.pdf" "What is the capital of Germany?"
    [.ok "Paris is the capital of France.",
      .ok "Berlin is the capital of Germany."]
    ["Paris is the capital of France.", "Berlin is the capital of Germany."]
    [[], []] [] [(1 : ℚ), (3 : ℚ)] 1
    "Berlin is the capital of Germany." "  Berlin.  " []
    rfl (by rfl) (by decide) rfl rfl rfl (by decide) rfl rfl

/-- C6: the chunk list is exactly the in-order filter of the raw page
texts keeping a page iff its stripped text is non-empty; in particular it
is a sublist of the pages (original order, raw text preserved). -/
theorem claim_c6_chunk_filter (pages : List String) :
    extractChunks (pages.map Except.ok)
        = .ok (pages.filter fun t => pyStrip t ≠ "") ∧
      List.Sublist (pages.filter fun t => pyStrip t ≠ "") pages :=
  ⟨extractChunks_map_ok pages, List.filter_sublist pages⟩

/-- C7: evaluating the code on a document whose second page raises during
text extraction shows the handler returning the error string while the
trace contains the document-open event but no close event: the handle
opened during extraction is not closed on this error path. -/
theorem claim_c7_handle_leak :
    document_qna_tool svFail "doc.pdf" "q"
        = ("Error processing document QnA: boom", [Event.openDoc]) ∧
      Event.closeDoc ∉ (document_qna_tool svFail "doc.pdf" "q").2 := by
  constructor
  · rfl
  · decide

end DocQna

namespace GradioUI

/-- C8: with a PDF uploaded and a non-blank query, `process_input`
dispatches to the tool at index 4 with the file's path and the query as
the question; with no PDF and a non-blank query, it dispatches the query
to `agent.run`. -/
theorem claim_c8_routing
    (tools : List Tool) (run : String → Except String String)
    (query : String) (f : GrFile) (t : Tool)
    (hq : DocQna.pyStrip query ≠ "")
    (ht : tools[4]? = some t) :
    (process_input tools run query (some f)).2 = Dispatch.docQna f.name query ∧
    (process_input tools run query none).2 = Dispatch.agentRun query := by
  constructor
  · rcases hc : callTool2 t f.name query with e | r <;>
      simp [process_input, hq, ht, hc]
  · rcases hr : run query with e | r <;> simp [process_input, hq, hr]

/-- C8 witness: the concrete `app.py` tool list with an uploaded file and
the query `"What?"`. -/
theorem claim_c8_routing_witness :
    (process_input toolsDemo runDemo "What?" (some ⟨"up.pdf"⟩)).2
        = Dispatch.docQna "up.pdf" "What?" ∧
    (process_input toolsDemo runDemo "What?" none).2
        = Dispatch.agentRun "What?" :=
  claim_c8_routing toolsDemo runDemo "What?" ⟨"up.pdf"⟩
    (qnaToolEntry DocQna.svDemo) (by decide) rfl

/-- C9: index 4 of the tool list registered in `app.py` is exactly the
Document Q&A tool entry; and when index 4 does not exist in the agent's
tool list, `process_input` returns the fixed index-error string instead of
raising. -/
theorem claim_c9_fixed_index
    (time weather image search final : Tool) (sv : DocQna.Services)
    (tools : List Tool) (run : String → Except String String)
    (query : String) (f : GrFile)
    (hq : DocQna.pyStrip query ≠ "")
    (hmiss : tools[4]? = none) :
    (appTools time weather image search final sv)[4]? = some (qnaToolEntry sv) ∧
    process_input tools run query (some f)
      = ("Error: Document Q&A tool not found at the expected index (4). Check agent tool setup in app.py.",
          Dispatch.noCall) := by
  constructor
  · rfl
  · simp [process_input, hq, hmiss]

/-- C9 witness: an empty tool list has no index 4. -/
theorem claim_c9_fixed_index_witness :
    (appTools stubTool stubTool stubTool stubTool stubTool
        DocQna.svDemo)[4]? = some (qnaToolEntry DocQna.svDemo) ∧
    process_input [] runDemo "hi" (some ⟨"a.pdf"⟩)
      = ("Error: Document Q&A tool not found at the expected index (4). Check agent tool setup in app.py.",
          Dispatch.noCall) :=
  claim_c9_fixed_index stubTool stubTool stubTool stubTool stubTool
    DocQna.svDemo [] runDemo "hi" ⟨"a.pdf"⟩ (by decide) rfl

/-- C10: `process_input` is a total function into strings (no exception
escapes); a PDF with a blank query yields the fixed question prompt, no
PDF and a blank query yields the fixed request prompt, and exceptions of
`agent.run` or of the index-4 tool are converted into error-message
strings. -/
theorem claim_c10_total_dispatch
    (tools : List Tool) (run : String → Except String String)
    (query : String) (f : GrFile) :
    (DocQna.pyStrip query = "" →
        process_input tools run query (some f)
          = ("Please enter a question in the textbox to ask about the uploaded PDF.",
              Dispatch.noCall)) ∧
    (DocQna.pyStrip query = "" →
        process_input tools run query none
          = ("Please enter a request or upload a document for analysis.",
              Dispatch.noCall)) ∧
    (∀ e, DocQna.pyStrip query ≠ "" → run query = .error e →
        process_input tools run query none
          = ("An error occurred while processing your request: " ++ e,
              Dispatch.agentRun query)) ∧
    (∀ e t, DocQna.pyStrip query ≠ "" → tools[4]? = some t →
        callTool2 t f.name query = .error e →
        process_input tools run query (some f)
          = ("An error occurred during Document Q&A: " ++ e,
              Dispatch.docQna f.name query)) := by
  refine ⟨?_, ?_, ?_, ?_⟩
  · intro h
    simp [process_input, h]
  · intro h
    simp [process_input, h]
  · intro e hq hr
    simp [process_input, hq, hr]
  · intro e t hq ht hc
    simp [process_input, hq, ht, hc]

/-- C10 witness: the four cases at concrete inputs — blank query with and
without a PDF, a raising `agent.run`, and a raising index-4 tool. -/
theorem claim_c10_total_dispatch_witness :
    process_input toolsDemo runDemo " " (some ⟨"f.pdf"⟩)
        = ("Please enter a question in the textbox to ask about the uploaded PDF.",
            Dispatch.noCall) ∧
    process_input toolsDemo runDemo " " none
        = ("Please enter a request or upload a document for analysis.",
            Dispatch.noCall) ∧
    process_input toolsDemo runErr "hi" none
        = ("An error occurred while processing your request: agent down",
            Dispatch.agentRun "hi") ∧
    process_input toolsErr runDemo "hi" (some ⟨"f.pdf"⟩)
        = ("An error occurred during Document Q&A: tool down",
            Dispatch.docQna "f.pdf" "hi") :=
  ⟨(claim_c10_total_dispatch toolsDemo runDemo " " ⟨"f.pdf"⟩).1 (by decide),
    (claim_c10_total_dispatch toolsDemo runDemo " " ⟨"f.pdf"⟩).2.1 (by decide),
    (claim_c10_total_dispatch toolsDemo runErr "hi" ⟨"f.pdf"⟩).2.2.1
      "agent down" (by decide) rfl,
    (claim_c10_total_dispatch toolsErr runDemo "hi" ⟨"f.pdf"⟩).2.2.2
      "tool down" (Tool.binary fun _ _ => .error "tool down")
      (by decide) rfl rfl⟩

end GradioUI
